import Mathlib

/-!
Shallow embedding of `src/streamlit_webp_converter.py` (the WEBP converter
core: mode normalization, static/animated encoding, GIF routing, batch
aggregation).  PIL images are modelled by their observable attributes
(`mode`, the `info` dict entries the code reads, size, pixel payload);
PIL pixel operations (`convert`, `paste`) are modelled as constructors of a
pixel-operation algebra, and `Image.save(..., 'WEBP', ...)` is modelled as a
concrete byte-producing function of the saved image and the keyword
arguments actually passed, so that the parameters handed to the encoder are
first-class and inspectable.
-/

/-- PIL color modes the code distinguishes: `'RGB'`, `'RGBA'`, `'P'`
(palette-indexed), and anything else (`'L'`, `'CMYK'`, ...). -/
inductive Mode
  | RGB
  | RGBA
  | P
  | Other
deriving DecidableEq, Repr

/-- Pixel payload of a decoded image, tracking which PIL pixel operations
were applied: `source` is the decoder output, `convertPix m p` is
`image.convert(m)`, `pasteOnto r g b p` is pasting `p` (with its alpha mask)
onto a fresh background of the given color (`Image.new('RGB', size, (r,g,b))`
followed by `background.paste(image, mask=alpha)`). -/
inductive PixelOp
  | source (id : Nat)
  | convertPix (m : Mode) (p : PixelOp)
  | pasteOnto (r g b : Nat) (p : PixelOp)
deriving DecidableEq, Repr

/-- One decoded frame: its mode, whether `'transparency' in image.info`,
the `image.info.get('duration')` entry (none when absent), pixel size and
pixel payload. -/
structure FrameData where
  mode : Mode
  hasTransparencyInfo : Bool
  durationInfo : Option Nat
  width : Nat
  height : Nat
  pix : PixelOp
deriving DecidableEq, Repr

/-- A decoded PIL image: its base frame (the image at the current seek
position, initially frame 0) plus the animation attributes the code probes
with `getattr` (`is_animated`, `n_frames`; `none` models the attribute being
absent) and, for multi-frame sources, the frames returned by
`seek(i)` + `copy()` in stream order. -/
structure PILImage where
  base : FrameData
  isAnimatedAttr : Option Bool
  nFramesAttr : Option Nat
  gifFrames : List FrameData
deriving DecidableEq, Repr

/-- One uploaded file: its name, `len(image_data)`, and the result of
`Image.open` (`none` models a decode exception). -/
structure SourceFile where
  filename : String
  byteLen : Nat
  decoded : Option PILImage
deriving DecidableEq, Repr

/-- `image.convert(mode)`: changes the mode and records the pixel
conversion; PIL's `convert` copies the `info` dict, so the info-derived
fields are preserved. -/
def convertTo (m : Mode) (f : FrameData) : FrameData :=
  { f with mode := m, pix := PixelOp.convertPix m f.pix }

/-- `str.lower()`, character by character. -/
def lowerChars : List Char → List Char
  | [] => []
  | c :: cs => c.toLower :: lowerChars cs

/-- `s.split('.')`: split a character list on every dot. -/
def splitOnDotChars : List Char → List (List Char)
  | [] => [[]]
  | c :: cs =>
    if c = '.' then [] :: splitOnDotChars cs
    else
      match splitOnDotChars cs with
      | [] => [[c]]
      | s :: ss => (c :: s) :: ss

/-- `filename.lower().split('.')[-1]`. -/
def fileExt (filename : String) : String :=
  String.mk ((splitOnDotChars (lowerChars filename.data)).getLastD [])

/-- Keyword arguments of an `image.save(buffer, 'WEBP', ...)` call. -/
structure SaveParams where
  lossless : Bool
  quality : Option Nat
  optimize : Bool
  saveAll : Bool
  appendImages : List FrameData
  duration : List Nat
  loop : Option Nat
deriving DecidableEq, Repr

def Mode.codeNum : Mode → Nat
  | .RGB => 0
  | .RGBA => 1
  | .P => 2
  | .Other => 3

def PixelOp.codeList : PixelOp → List Nat
  | .source n => [0, n]
  | .convertPix m p => 1 :: m.codeNum :: p.codeList
  | .pasteOnto r g b p => 2 :: r :: g :: b :: p.codeList

def FrameData.codeList (f : FrameData) : List Nat :=
  f.mode.codeNum :: f.width :: f.height :: f.pix.codeList

def SaveParams.codeList (p : SaveParams) : List Nat :=
  [if p.lossless then 1 else 0, p.quality.getD 999,
   if p.optimize then 1 else 0, if p.saveAll then 1 else 0,
   p.loop.getD 999] ++ p.duration ++ (p.appendImages.map FrameData.codeList).flatten

/-- The external WEBP encoder (`image.save(..., 'WEBP', ...)`): a concrete
deterministic function of the saved image and every keyword argument passed
to it; the output always starts with the RIFF magic, so it is never empty. -/
def webpEncode (img : FrameData) (p : SaveParams) : List Nat :=
  82 :: 73 :: 70 :: 70 :: (img.codeList ++ p.codeList)

/-- The statistics dict built by each conversion function. -/
structure Stats where
  filename : String
  original_format : String
  original_size : Nat
  new_size : Nat
  reduction : ℚ
  compression_type : String
  dimensions : String
  has_transparency : Bool
  frames : Option Nat
  animated : Option Bool
  output_type : Option String
deriving DecidableEq, Repr

/-- `(1 - new_size / original_size) * 100`. -/
def reductionPct (origSize newSize : Nat) : ℚ :=
  (1 - (newSize : ℚ) / (origSize : ℚ)) * 100

def dimsString (f : FrameData) : String :=
  toString f.width ++ "x" ++ toString f.height

/-- Result of one successful conversion: the encoded bytes, the image and
keyword arguments of the save call that produced them, and the stats dict. -/
structure ConvOutput where
  webpData : List Nat
  savedImage : FrameData
  saveParams : SaveParams
  stats : Stats
deriving DecidableEq, Repr

/-- Mode normalization of `convert_image_to_webp` (lines 72-90): RGBA is
kept for PNG and composited over a white background otherwise; palette
images convert to RGBA when a transparency key is present and to RGB
otherwise; any other mode converts to RGB. -/
def staticNormalize (ext : String) (img : FrameData) : FrameData :=
  if img.mode = Mode.RGBA then
    if ext = "png" then img
    else
      { mode := Mode.RGB, hasTransparencyInfo := false, durationInfo := none,
        width := img.width, height := img.height,
        pix := PixelOp.pasteOnto 255 255 255 img.pix }
  else if img.mode = Mode.P then
    if img.hasTransparencyInfo then convertTo Mode.RGBA img
    else convertTo Mode.RGB img
  else if img.mode = Mode.RGB then img
  else convertTo Mode.RGB img

/-- Mode normalization of `convert_static_gif_to_webp` (lines 158-164). -/
def gifStaticNormalize (img : FrameData) : FrameData :=
  if img.mode = Mode.P then
    if img.hasTransparencyInfo then convertTo Mode.RGBA img
    else convertTo Mode.RGB img
  else if img.mode = Mode.RGB ∨ img.mode = Mode.RGBA then img
  else convertTo Mode.RGB img

/-- Per-frame mode normalization of the animated path (lines 220-227):
palette frames convert to RGBA exactly when a transparency key is present
(RGB otherwise); RGB and RGBA frames are kept; any other mode converts to
RGBA. -/
def animatedNormalize (f : FrameData) : FrameData :=
  if f.mode = Mode.P then
    if f.hasTransparencyInfo then convertTo Mode.RGBA f
    else convertTo Mode.RGB f
  else if f.mode = Mode.RGB ∨ f.mode = Mode.RGBA then f
  else convertTo Mode.RGBA f

/-- `max(frame.info.get('duration', 100), 50)` (lines 232-234). -/
def frameDuration (f : FrameData) : Nat :=
  max (f.durationInfo.getD 100) 50

/-- The frame/duration extraction loop of the animated path (lines 213-235):
each frame is normalized and its clamped duration collected, positionally
aligned, in stream order. -/
def extractLoop : List FrameData → List FrameData × List Nat
  | [] => ([], [])
  | f :: rest =>
    (animatedNormalize f :: (extractLoop rest).1,
     frameDuration (animatedNormalize f) :: (extractLoop rest).2)

/-- `for frame_index in range(n): gif.seek(frame_index); gif.copy()` —
yields the first `n` decoded frames; seeking past the end raises, which is
modelled by `none`. -/
def seekFrames (g : PILImage) (n : Nat) : Option (List FrameData) :=
  if n ≤ g.gifFrames.length then some (g.gifFrames.take n) else none

/-- Save-call arguments and compression label of the static path
(lines 95-104): lossless ignores quality; lossy bumps the quality to
`min(quality+5, 100)` exactly when the normalized image is RGBA; the label
always shows the caller-supplied quality. -/
def staticSaveCall (image : FrameData) (quality : Nat) (lossless : Bool) :
    SaveParams × String :=
  if lossless then
    ({ lossless := true, quality := none, optimize := false, saveAll := false,
       appendImages := [], duration := [], loop := none }, "Sem perdas")
  else if image.mode = Mode.RGBA then
    ({ lossless := false, quality := some (min (quality + 5) 100),
       optimize := true, saveAll := false,
       appendImages := [], duration := [], loop := none },
     "Qualidade " ++ toString quality)
  else
    ({ lossless := false, quality := some quality, optimize := true,
       saveAll := false, appendImages := [], duration := [], loop := none },
     "Qualidade " ++ toString quality)

/-- Save-call arguments and label of the static-GIF path (lines 169-174):
the lossy branch passes `quality=quality` with no transparency bump. -/
def gifStaticSaveCall (quality : Nat) (lossless : Bool) :
    SaveParams × String :=
  if lossless then
    ({ lossless := true, quality := none, optimize := false, saveAll := false,
       appendImages := [], duration := [], loop := none },
     "WEBP Estático - Sem perdas")
  else
    ({ lossless := false, quality := some quality, optimize := true,
       saveAll := false, appendImages := [], duration := [], loop := none },
     "WEBP Estático - Qualidade " ++ toString quality)

/-- Save-call arguments and label of the animated path (lines 243-266):
all frames after the first go in `append_images`, the duration list is
passed positionally, loop is 0 (infinite); the lossy branch passes
`quality=quality` (no bump). -/
def animatedSaveCall (durations : List Nat) (rest : List FrameData)
    (quality : Nat) (lossless : Bool) : SaveParams × String :=
  if lossless then
    ({ lossless := true, quality := none, optimize := true, saveAll := true,
       appendImages := rest, duration := durations, loop := some 0 },
     "WEBP Animado - Sem perdas")
  else
    ({ lossless := false, quality := some quality, optimize := true,
       saveAll := true, appendImages := rest, duration := durations,
       loop := some 0 },
     "WEBP Animado - Qualidade " ++ toString quality)

/-- Successful-return value of `convert_static_gif_to_webp`. -/
def mkGifStaticOutput (g : PILImage) (byteLen : Nat) (filename : String)
    (quality : Nat) (lossless : Bool) : ConvOutput :=
  { webpData := webpEncode (gifStaticNormalize g.base)
      (gifStaticSaveCall quality lossless).1,
    savedImage := gifStaticNormalize g.base,
    saveParams := (gifStaticSaveCall quality lossless).1,
    stats :=
      { filename := filename, original_format := "GIF",
        original_size := byteLen,
        new_size := (webpEncode (gifStaticNormalize g.base)
          (gifStaticSaveCall quality lossless).1).length,
        reduction := reductionPct byteLen (webpEncode (gifStaticNormalize g.base)
          (gifStaticSaveCall quality lossless).1).length,
        compression_type := (gifStaticSaveCall quality lossless).2,
        dimensions := dimsString (gifStaticNormalize g.base),
        has_transparency := decide ((gifStaticNormalize g.base).mode = Mode.RGBA),
        frames := some 1, animated := some false,
        output_type := some "WEBP Estático" } }

/-- `convert_static_gif_to_webp` (lines 152-201): normalize the single
frame, save as static WEBP, build stats; a zero byte count makes the
reduction computation raise, caught by the handler (`none`). -/
def convert_static_gif_to_webp (g : PILImage) (byteLen : Nat)
    (filename : String) (quality : Nat) (lossless : Bool) : Option ConvOutput :=
  if byteLen = 0 then none
  else some (mkGifStaticOutput g byteLen filename quality lossless)

/-- Successful-return value of `convert_animated_gif_to_webp`. -/
def mkAnimatedOutput (g : PILImage) (byteLen : Nat) (filename : String)
    (quality : Nat) (lossless : Bool) (f0 : FrameData) (rest : List FrameData)
    (durations : List Nat) : ConvOutput :=
  { webpData := webpEncode f0 (animatedSaveCall durations rest quality lossless).1,
    savedImage := f0,
    saveParams := (animatedSaveCall durations rest quality lossless).1,
    stats :=
      { filename := filename, original_format := "GIF",
        original_size := byteLen,
        new_size := (webpEncode f0
          (animatedSaveCall durations rest quality lossless).1).length,
        reduction := reductionPct byteLen (webpEncode f0
          (animatedSaveCall durations rest quality lossless).1).length,
        compression_type := (animatedSaveCall durations rest quality lossless).2,
        dimensions := dimsString g.base,
        has_transparency := (f0 :: rest).any fun f => decide (f.mode = Mode.RGBA),
        frames := some (f0 :: rest).length,
        animated := some true,
        output_type := some "WEBP Animado" } }

/-- `convert_animated_gif_to_webp` (lines 203-293): extract and normalize
all `n_frames` frames with their clamped durations, then save them all as
one animated WEBP.  There is no dimension check anywhere on this path.
Exceptions (seek past end, empty frame list, zero byte count) are caught by
the handler (`none`). -/
def convert_animated_gif_to_webp (g : PILImage) (byteLen : Nat)
    (filename : String) (quality : Nat) (lossless : Bool) : Option ConvOutput :=
  match seekFrames g (g.nFramesAttr.getD 1) with
  | none => none
  | some raws =>
    match extractLoop raws with
    | ([], _) => none
    | (f0 :: rest, durations) =>
      if byteLen = 0 then none
      else some (mkAnimatedOutput g byteLen filename quality lossless f0 rest durations)

/-- `convert_gif_to_webp` (lines 130-150): probe `is_animated` (default
false) and `n_frames` (default 1); route to the animated path exactly when
both the flag is set and the frame count exceeds 1, else to the static-GIF
path. -/
def convert_gif_to_webp (src : SourceFile) (quality : Nat) (lossless : Bool) :
    Option ConvOutput :=
  match src.decoded with
  | none => none
  | some g =>
    if g.isAnimatedAttr.getD false ∧ 1 < g.nFramesAttr.getD 1 then
      convert_animated_gif_to_webp g src.byteLen src.filename quality lossless
    else
      convert_static_gif_to_webp g src.byteLen src.filename quality lossless

/-- Successful-return value of the non-GIF branch of `convert_image_to_webp`. -/
def mkStaticOutput (src : SourceFile) (pilimg : PILImage) (quality : Nat)
    (lossless : Bool) : ConvOutput :=
  { webpData := webpEncode (staticNormalize (fileExt src.filename) pilimg.base)
      (staticSaveCall (staticNormalize (fileExt src.filename) pilimg.base)
        quality lossless).1,
    savedImage := staticNormalize (fileExt src.filename) pilimg.base,
    saveParams := (staticSaveCall
      (staticNormalize (fileExt src.filename) pilimg.base) quality lossless).1,
    stats :=
      { filename := src.filename,
        original_format := (fileExt src.filename).toUpper,
        original_size := src.byteLen,
        new_size := (webpEncode (staticNormalize (fileExt src.filename) pilimg.base)
          (staticSaveCall (staticNormalize (fileExt src.filename) pilimg.base)
            quality lossless).1).length,
        reduction := reductionPct src.byteLen
          (webpEncode (staticNormalize (fileExt src.filename) pilimg.base)
            (staticSaveCall (staticNormalize (fileExt src.filename) pilimg.base)
              quality lossless).1).length,
        compression_type := (staticSaveCall
          (staticNormalize (fileExt src.filename) pilimg.base) quality lossless).2,
        dimensions := dimsString (staticNormalize (fileExt src.filename) pilimg.base),
        has_transparency := decide ((staticNormalize (fileExt src.filename)
          pilimg.base).mode = Mode.RGBA),
        frames := none, animated := none, output_type := none } }

/-- `convert_image_to_webp` (lines 48-128): GIF extensions dispatch to
`convert_gif_to_webp`; otherwise the single decoded frame is normalized and
saved as static WEBP.  Exceptions (decode failure, zero byte count at the
reduction computation) are caught by the handler (`none`). -/
def convert_image_to_webp (src : SourceFile) (quality : Nat) (lossless : Bool) :
    Option ConvOutput :=
  if fileExt src.filename = "gif" then convert_gif_to_webp src quality lossless
  else
    match src.decoded with
    | none => none
    | some pilimg =>
      if src.byteLen = 0 then none
      else some (mkStaticOutput src pilimg quality lossless)

/-- `uploaded_file.name.rsplit('.', 1)[0] + '.webp'`. -/
def webpName (filename : String) : String :=
  (if (filename.splitOn ".").length ≤ 1 then filename
   else String.intercalate "." (filename.splitOn ".").dropLast) ++ ".webp"

/-- Accumulator of the batch loop in `main` (lines 415-444). -/
structure BatchState where
  convertedFiles : List (List Nat × String)
  allStats : List Stats
  totalOriginal : Nat
  totalNew : Nat
deriving DecidableEq, Repr

def initialBatchState : BatchState :=
  { convertedFiles := [], allStats := [], totalOriginal := 0, totalNew := 0 }

/-- Loop body of `main`'s batch loop (lines 421-444): `if webp_data and
stats:` — a `None` result, or a falsy (empty) byte string, contributes
nothing; otherwise the output and stats are appended and the byte counts
folded into the running totals. -/
def processFile (quality : Nat) (lossless : Bool) (st : BatchState)
    (f : SourceFile) : BatchState :=
  match convert_image_to_webp f quality lossless with
  | none => st
  | some out =>
    if out.webpData = [] then st
    else
      { convertedFiles := st.convertedFiles ++ [(out.webpData, webpName f.filename)],
        allStats := st.allStats ++ [out.stats],
        totalOriginal := st.totalOriginal + out.stats.original_size,
        totalNew := st.totalNew + out.stats.new_size }

/-- The whole batch loop over the uploaded files, in upload order. -/
def processBatch (files : List SourceFile) (quality : Nat) (lossless : Bool) :
    BatchState :=
  files.foldl (processFile quality lossless) initialBatchState

/-- What `main` does about the aggregate reduction (lines 450-454):
nothing at all when `converted_files` is empty (`skipped`); an uncaught
`ZeroDivisionError` when it is non-empty with a zero total (`divError`);
otherwise the value `(1 - total_new/total_original) * 100` is shown. -/
inductive AggregateDisplay
  | skipped
  | divError
  | shown (r : ℚ)
deriving DecidableEq, Repr

def aggregateOf (st : BatchState) : AggregateDisplay :=
  if st.convertedFiles = [] then AggregateDisplay.skipped
  else if st.totalOriginal = 0 then AggregateDisplay.divError
  else AggregateDisplay.shown (reductionPct st.totalOriginal st.totalNew)

/-- Projection: the `quality` keyword argument of the save call. -/
def effQuality (o : ConvOutput) : Option Nat := o.saveParams.quality

/-- Projection: mode of the image handed to the save call. -/
def savedMode (o : ConvOutput) : Mode := o.savedImage.mode

/-- Projection: pixel payload of the image handed to the save call. -/
def savedPix (o : ConvOutput) : PixelOp := o.savedImage.pix

def statsAnimated (o : ConvOutput) : Option Bool := o.stats.animated

def statsFrames (o : ConvOutput) : Option Nat := o.stats.frames

def statsTransparency (o : ConvOutput) : Bool := o.stats.has_transparency

def statsCompression (o : ConvOutput) : String := o.stats.compression_type

/-! ## Helper lemmas -/

theorem frameDuration_convertTo (m : Mode) (f : FrameData) :
    frameDuration (convertTo m f) = frameDuration f := rfl

theorem frameDuration_animatedNormalize (f : FrameData) :
    frameDuration (animatedNormalize f) = frameDuration f := by
  unfold animatedNormalize
  split
  · split <;> rfl
  · split
    · rfl
    · rfl

theorem extractLoop_eq (raws : List FrameData) :
    extractLoop raws = (raws.map animatedNormalize, raws.map frameDuration) := by
  induction raws with
  | nil => rfl
  | cons f rest ih =>
    simp [extractLoop, ih, frameDuration_animatedNormalize]

theorem webpEncode_ne_nil (img : FrameData) (p : SaveParams) :
    webpEncode img p ≠ [] := by
  simp [webpEncode]

theorem convert_static_gif_some {g : PILImage} {bl : Nat} {fn : String}
    {q : Nat} {l : Bool} {out : ConvOutput}
    (h : convert_static_gif_to_webp g bl fn q l = some out) :
    out = mkGifStaticOutput g bl fn q l ∧ bl ≠ 0 := by
  unfold convert_static_gif_to_webp at h
  split at h
  · exact absurd h (by simp)
  · exact ⟨(Option.some.injEq _ _ ▸ h).symm, by assumption⟩

theorem convert_image_gif_eq (src : SourceFile) (q : Nat) (l : Bool)
    (hext : fileExt src.filename = "gif") :
    convert_image_to_webp src q l = convert_gif_to_webp src q l := by
  unfold convert_image_to_webp
  rw [if_pos hext]

theorem convert_image_nongif_eq {src : SourceFile} {pil : PILImage}
    (q : Nat) (l : Bool) (hext : fileExt src.filename ≠ "gif")
    (hdec : src.decoded = some pil) (hbl : src.byteLen ≠ 0) :
    convert_image_to_webp src q l = some (mkStaticOutput src pil q l) := by
  unfold convert_image_to_webp
  rw [if_neg hext, hdec]
  simp [hbl]

theorem convert_gif_routing {src : SourceFile} {g : PILImage} (q : Nat) (l : Bool)
    (hdec : src.decoded = some g) :
    convert_gif_to_webp src q l =
      if g.isAnimatedAttr.getD false ∧ 1 < g.nFramesAttr.getD 1 then
        convert_animated_gif_to_webp g src.byteLen src.filename q l
      else convert_static_gif_to_webp g src.byteLen src.filename q l := by
  unfold convert_gif_to_webp
  rw [hdec]

theorem convert_animated_eq (g : PILImage) (bl : Nat) (fn : String)
    (q : Nat) (l : Bool) (raws : List FrameData) (f0 : FrameData)
    (rest : List FrameData)
    (hseek : seekFrames g (g.nFramesAttr.getD 1) = some raws)
    (hmap : raws.map animatedNormalize = f0 :: rest) (hbl : bl ≠ 0) :
    convert_animated_gif_to_webp g bl fn q l =
      some (mkAnimatedOutput g bl fn q l f0 rest (raws.map frameDuration)) := by
  unfold convert_animated_gif_to_webp
  simp only [hseek]
  rw [extractLoop_eq, hmap]
  simp [hbl]

theorem convert_image_some_props {src : SourceFile} {q : Nat} {l : Bool}
    {out : ConvOutput} (h : convert_image_to_webp src q l = some out) :
    out.webpData ≠ [] ∧ out.stats.original_size = src.byteLen ∧ src.byteLen ≠ 0 := by
  unfold convert_image_to_webp convert_gif_to_webp convert_animated_gif_to_webp
    convert_static_gif_to_webp at h
  repeat' split at h
  all_goals first
    | exact Option.noConfusion h
    | (cases h; exact ⟨webpEncode_ne_nil _ _, rfl, by assumption⟩)

/-- The successfully converted items of a batch, paired with their source
files, in upload order. -/
def successes (files : List SourceFile) (q : Nat) (l : Bool) :
    List (SourceFile × ConvOutput) :=
  files.filterMap fun f => (convert_image_to_webp f q l).map fun o => (f, o)

theorem successes_mem {files : List SourceFile} {q : Nat} {l : Bool}
    {p : SourceFile × ConvOutput} (hp : p ∈ successes files q l) :
    convert_image_to_webp p.1 q l = some p.2 := by
  unfold successes at hp
  rcases List.mem_filterMap.mp hp with ⟨f, _, hf⟩
  rcases Option.map_eq_some'.mp hf with ⟨o, ho, hpo⟩
  cases hpo
  exact ho

theorem processFile_none {q : Nat} {l : Bool} {st : BatchState} {f : SourceFile}
    (h : convert_image_to_webp f q l = none) :
    processFile q l st f = st := by
  unfold processFile
  rw [h]

theorem processFile_some {q : Nat} {l : Bool} {st : BatchState} {f : SourceFile}
    {out : ConvOutput} (h : convert_image_to_webp f q l = some out) :
    processFile q l st f =
      { convertedFiles := st.convertedFiles ++ [(out.webpData, webpName f.filename)],
        allStats := st.allStats ++ [out.stats],
        totalOriginal := st.totalOriginal + out.stats.original_size,
        totalNew := st.totalNew + out.stats.new_size } := by
  unfold processFile
  rw [h]
  simp [(convert_image_some_props h).1]

theorem foldl_processFile_eq (q : Nat) (l : Bool) (files : List SourceFile) :
    ∀ st : BatchState,
      files.foldl (processFile q l) st =
        { convertedFiles := st.convertedFiles ++
            ((successes files q l).map fun p => (p.2.webpData, webpName p.1.filename)),
          allStats := st.allStats ++ ((successes files q l).map fun p => p.2.stats),
          totalOriginal := st.totalOriginal +
            ((successes files q l).map fun p => p.2.stats.original_size).sum,
          totalNew := st.totalNew +
            ((successes files q l).map fun p => p.2.stats.new_size).sum } := by
  induction files with
  | nil => intro st; cases st; simp [successes]
  | cons f fs ih =>
    intro st
    cases hc : convert_image_to_webp f q l with
    | none =>
      rw [List.foldl_cons, processFile_none hc, ih]
      simp [successes, List.filterMap_cons, hc]
    | some out =>
      rw [List.foldl_cons, processFile_some hc, ih]
      simp [successes, List.filterMap_cons, hc, Nat.add_assoc]

/-- Full characterization of the batch loop: the accumulator is exactly the
fold of the successful conversions, in upload order. -/
theorem processBatch_eq (files : List SourceFile) (q : Nat) (l : Bool) :
    processBatch files q l =
      { convertedFiles :=
          (successes files q l).map fun p => (p.2.webpData, webpName p.1.filename),
        allStats := (successes files q l).map fun p => p.2.stats,
        totalOriginal :=
          ((successes files q l).map fun p => p.2.stats.original_size).sum,
        totalNew := ((successes files q l).map fun p => p.2.stats.new_size).sum } := by
  unfold processBatch
  rw [foldl_processFile_eq]
  simp [initialBatchState]

theorem staticSaveCall_lossy_rgba {image : FrameData} (q : Nat)
    (hmode : image.mode = Mode.RGBA) :
    (staticSaveCall image q false).1.quality = some (min (q + 5) 100) := by
  simp [staticSaveCall, hmode]

theorem staticSaveCall_lossy_label (image : FrameData) (q : Nat) :
    (staticSaveCall image q false).2 = "Qualidade " ++ toString q := by
  by_cases h : image.mode = Mode.RGBA <;> simp [staticSaveCall, h]

/-! ## Claim theorems -/

/-- C2: on an animated source with `n > 1` frames, the extraction step
yields exactly `n` frames in stream order and `n` positionally aligned
durations, each equal to the declared delay (100 when absent) clamped below
at 50, hence ≥ 50. -/
theorem C2_extract_sequence (g : PILImage)
    (hn : g.nFramesAttr.getD 1 = g.gifFrames.length)
    (h1 : 1 < g.gifFrames.length) :
    seekFrames g (g.nFramesAttr.getD 1) = some g.gifFrames ∧
    (extractLoop g.gifFrames).1 = g.gifFrames.map animatedNormalize ∧
    (extractLoop g.gifFrames).1.length = g.gifFrames.length ∧
    (extractLoop g.gifFrames).2 =
      g.gifFrames.map (fun f => max (f.durationInfo.getD 100) 50) ∧
    (extractLoop g.gifFrames).2.length = g.gifFrames.length ∧
    ∀ d ∈ (extractLoop g.gifFrames).2, 50 ≤ d := by
  refine ⟨?_, ?_, ?_, ?_, ?_, ?_⟩
  · unfold seekFrames
    rw [hn, if_pos (le_refl _), List.take_length]
  · rw [extractLoop_eq]
  · rw [extractLoop_eq]; simp
  · rw [extractLoop_eq]; rfl
  · rw [extractLoop_eq]; simp
  · rw [extractLoop_eq]
    intro d hd
    obtain ⟨f, _, rfl⟩ := List.mem_map.mp hd
    exact Nat.le_max_right _ _

def c2ExFrame1 : FrameData :=
  { mode := Mode.P, hasTransparencyInfo := true, durationInfo := some 10,
    width := 4, height := 4, pix := PixelOp.source 1 }

def c2ExFrame2 : FrameData :=
  { mode := Mode.RGB, hasTransparencyInfo := false, durationInfo := none,
    width := 4, height := 4, pix := PixelOp.source 2 }

def c2ExGif : PILImage :=
  { base := c2ExFrame1, isAnimatedAttr := some true, nFramesAttr := some 2,
    gifFrames := [c2ExFrame1, c2ExFrame2] }

/-- C2 witness: a concrete 2-frame source (declared delays 10ms and absent)
satisfies the hypotheses, and its durations come out as [50, 100]. -/
theorem C2_extract_sequence_witness :
    c2ExGif.nFramesAttr.getD 1 = c2ExGif.gifFrames.length ∧
    1 < c2ExGif.gifFrames.length ∧
    (extractLoop c2ExGif.gifFrames).2 = [50, 100] :=
  ⟨by decide, by decide, by
    have h := (C2_extract_sequence c2ExGif (by decide) (by decide)).2.2.2.1
    rw [h]; decide⟩

def c3PaletteFrame : FrameData :=
  { mode := Mode.P, hasTransparencyInfo := false, durationInfo := some 80,
    width := 2, height := 2, pix := PixelOp.source 3 }

/-- C3 counterexample: a palette-indexed frame without a transparency key is
normalized to RGB on the animated path, not to RGBA — the normalization is
not unconditional. -/
theorem C3_counterexample :
    c3PaletteFrame.mode = Mode.P ∧
    c3PaletteFrame.hasTransparencyInfo = false ∧
    (animatedNormalize c3PaletteFrame).mode = Mode.RGB ∧
    (animatedNormalize c3PaletteFrame).mode ≠ Mode.RGBA := by decide

/-- C3 (amended): on the animated path a frame is normalized to RGBA only
when it already is RGBA, is palette-indexed with a transparency key, or has
a mode other than P/RGB/RGBA; palette frames without a key and RGB frames
stay opaque (RGB), so not every frame handed to the animated encoder is
transparency-capable. -/
theorem C3_amended (f : FrameData) :
    (f.mode = Mode.P → f.hasTransparencyInfo = true →
      (animatedNormalize f).mode = Mode.RGBA) ∧
    (f.mode = Mode.P → f.hasTransparencyInfo = false →
      (animatedNormalize f).mode = Mode.RGB) ∧
    (f.mode = Mode.RGB → animatedNormalize f = f) ∧
    (f.mode = Mode.RGBA → animatedNormalize f = f) ∧
    (f.mode = Mode.Other → (animatedNormalize f).mode = Mode.RGBA) := by
  obtain ⟨m, t, d, w, h, p⟩ := f
  cases m <;> cases t <;> simp [animatedNormalize, convertTo]

def c3OtherFrame : FrameData :=
  { mode := Mode.Other, hasTransparencyInfo := false, durationInfo := none,
    width := 2, height := 2, pix := PixelOp.source 4 }

/-- C3 witness: a concrete non-P/RGB/RGBA frame is normalized to RGBA. -/
theorem C3_amended_witness :
    c3OtherFrame.mode = Mode.Other ∧
    (animatedNormalize c3OtherFrame).mode = Mode.RGBA :=
  ⟨by decide, (C3_amended c3OtherFrame).2.2.2.2 (by decide)⟩

def c1GifImage : PILImage :=
  { base := { mode := Mode.P, hasTransparencyInfo := true, durationInfo := none,
              width := 3, height := 3, pix := PixelOp.source 5 },
    isAnimatedAttr := some false, nFramesAttr := some 1, gifFrames := [] }

def c1GifSrc : SourceFile :=
  { filename := "logo.gif", byteLen := 500, decoded := some c1GifImage }

/-- C1 counterexample: a static GIF whose frame becomes RGBA
(transparency-capable), converted with lossless=false and quality 80, is
encoded with `quality=80`, not `min(80+5,100)=85` — the static-GIF codepath
applies no transparency quality bump. -/
theorem C1_counterexample :
    (convert_image_to_webp c1GifSrc 80 false).map savedMode = some Mode.RGBA ∧
    (convert_image_to_webp c1GifSrc 80 false).map effQuality = some (some 80) ∧
    (some 80 : Option Nat) ≠ some (min (80 + 5) 100) := by decide

/-- C1 (amended): with lossless=false, a frame normalized to RGBA on the
non-GIF static path (`convert_image_to_webp`) is encoded with effective
quality `min(quality+5, 100)`; but on the static-GIF codepath
(`convert_static_gif_to_webp`) no bump is applied: an RGBA frame is encoded
at exactly the policy quality. -/
theorem C1_amended :
    (∀ (src : SourceFile) (pil : PILImage) (q : Nat),
      fileExt src.filename ≠ "gif" → src.decoded = some pil →
      src.byteLen ≠ 0 →
      (staticNormalize (fileExt src.filename) pil.base).mode = Mode.RGBA →
      (convert_image_to_webp src q false).map effQuality =
        some (some (min (q + 5) 100))) ∧
    (∀ (g : PILImage) (bl : Nat) (fn : String) (q : Nat),
      bl ≠ 0 → (gifStaticNormalize g.base).mode = Mode.RGBA →
      (convert_static_gif_to_webp g bl fn q false).map effQuality =
        some (some q)) := by
  constructor
  · intro src pil q hext hdec hbl hmode
    rw [convert_image_nongif_eq q false hext hdec hbl]
    simp [effQuality, mkStaticOutput, staticSaveCall_lossy_rgba q hmode]
  · intro g bl fn q hbl hmode
    unfold convert_static_gif_to_webp
    rw [if_neg hbl]
    simp [effQuality, mkGifStaticOutput, gifStaticSaveCall]

def c1PngImage : PILImage :=
  { base := { mode := Mode.RGBA, hasTransparencyInfo := false,
              durationInfo := none, width := 8, height := 8,
              pix := PixelOp.source 6 },
    isAnimatedAttr := none, nFramesAttr := none, gifFrames := [] }

def c1PngSrc : SourceFile :=
  { filename := "icon.png", byteLen := 900, decoded := some c1PngImage }

/-- C1 witness: a concrete RGBA PNG gets the bumped quality and a concrete
RGBA static GIF gets the unbumped policy quality. -/
theorem C1_amended_witness :
    (convert_image_to_webp c1PngSrc 80 false).map effQuality =
      some (some (min (80 + 5) 100)) ∧
    (convert_static_gif_to_webp c1GifImage 500 "logo.gif" 80 false).map
      effQuality = some (some 80) :=
  ⟨C1_amended.1 c1PngSrc c1PngImage 80 (by decide) rfl (by decide) (by decide),
   C1_amended.2 c1GifImage 500 "logo.gif" 80 (by decide) (by decide)⟩

def c4FrameA : FrameData :=
  { mode := Mode.RGB, hasTransparencyInfo := false, durationInfo := some 100,
    width := 2, height := 2, pix := PixelOp.source 7 }

def c4FrameB : FrameData :=
  { mode := Mode.RGB, hasTransparencyInfo := false, durationInfo := some 100,
    width := 3, height := 3, pix := PixelOp.source 8 }

def c4Gif : PILImage :=
  { base := c4FrameA, isAnimatedAttr := some true, nFramesAttr := some 2,
    gifFrames := [c4FrameA, c4FrameB] }

def c4Src : SourceFile :=
  { filename := "anim.gif", byteLen := 800, decoded := some c4Gif }

/-- C4 counterexample: an animated sequence whose second frame's dimensions
(3x3) differ from the first frame's (2x2) is converted successfully — the
conversion does not fail, so no `DimensionMismatchError` is raised (none
exists in the code). -/
theorem C4_counterexample :
    (c4FrameA.width, c4FrameA.height) ≠ (c4FrameB.width, c4FrameB.height) ∧
    (convert_image_to_webp c4Src 80 false).isSome = true ∧
    (convert_image_to_webp c4Src 80 false).map statsFrames = some (some 2) := by
  decide

/-- C4 (amended): the animated path performs no dimension check at all: for
any extracted frame sequence — regardless of whether the frames' dimensions
agree with the first frame's — the conversion succeeds and every frame is
handed to the encoder (first frame plus `append_images`), with the full
duration list. -/
theorem C4_amended (g : PILImage) (bl : Nat) (fn : String) (q : Nat) (l : Bool)
    (hn : g.nFramesAttr.getD 1 = g.gifFrames.length)
    (h0 : g.gifFrames ≠ []) (hbl : bl ≠ 0) :
    (convert_animated_gif_to_webp g bl fn q l).isSome = true ∧
    (convert_animated_gif_to_webp g bl fn q l).map
        (fun o => o.savedImage :: o.saveParams.appendImages) =
      some (g.gifFrames.map animatedNormalize) ∧
    (convert_animated_gif_to_webp g bl fn q l).map
        (fun o => o.saveParams.duration) =
      some (g.gifFrames.map frameDuration) := by
  obtain ⟨f, fs, hcons⟩ : ∃ f fs, g.gifFrames.map animatedNormalize = f :: fs := by
    cases hg : g.gifFrames with
    | nil => exact absurd hg h0
    | cons a as =>
      exact ⟨animatedNormalize a, as.map animatedNormalize, by simp [hg]⟩
  have hseek : seekFrames g (g.nFramesAttr.getD 1) = some g.gifFrames := by
    unfold seekFrames
    rw [hn, if_pos (le_refl _), List.take_length]
  rw [convert_animated_eq g bl fn q l g.gifFrames f fs hseek hcons hbl]
  have happ : (animatedSaveCall (g.gifFrames.map frameDuration) fs q l).1.appendImages
      = fs := by
    cases l <;> simp [animatedSaveCall]
  have hdur : (animatedSaveCall (g.gifFrames.map frameDuration) fs q l).1.duration
      = g.gifFrames.map frameDuration := by
    cases l <;> simp [animatedSaveCall]
  refine ⟨rfl, ?_, ?_⟩
  · simp [mkAnimatedOutput, happ, hcons]
  · simp [mkAnimatedOutput, hdur]

/-- C4 witness: a concrete mismatched-dimension 2-frame sequence satisfies
the hypotheses and is encoded whole. -/
theorem C4_amended_witness :
    c4Gif.nFramesAttr.getD 1 = c4Gif.gifFrames.length ∧
    (convert_animated_gif_to_webp c4Gif 800 "anim.gif" 80 false).isSome = true :=
  ⟨by decide,
   (C4_amended c4Gif 800 "anim.gif" 80 false (by decide) (by decide) (by decide)).1⟩

def c5BadSrc : SourceFile :=
  { filename := "broken.png", byteLen := 10, decoded := none }

/-- C5 counterexample: for an all-failed batch (`totalOriginalBytes = 0`)
the aggregate statistics block is skipped entirely — no reduction value is
produced, in particular the aggregate reduction is not "defined as 0%". -/
theorem C5_counterexample :
    (processBatch [c5BadSrc] 80 false).totalOriginal = 0 ∧
    aggregateOf (processBatch [c5BadSrc] 80 false) = AggregateDisplay.skipped ∧
    AggregateDisplay.skipped ≠ AggregateDisplay.shown 0 := by decide

/-- C5 (amended): the aggregate reduction, when shown, is computed as
`(1 - totalEncoded/totalOriginal) * 100`; when no item converted
successfully the whole aggregate block is skipped (no value is defined, no
division is attempted); and the computation never raises a division error,
because every successful item contributes a positive original byte count. -/
theorem C5_amended (files : List SourceFile) (q : Nat) (l : Bool) :
    ((processBatch files q l).convertedFiles = [] →
      aggregateOf (processBatch files q l) = AggregateDisplay.skipped) ∧
    ((processBatch files q l).convertedFiles ≠ [] →
      aggregateOf (processBatch files q l) =
        AggregateDisplay.shown
          (reductionPct (processBatch files q l).totalOriginal
            (processBatch files q l).totalNew)) ∧
    aggregateOf (processBatch files q l) ≠ AggregateDisplay.divError := by
  have key : ∀ p ∈ successes files q l, p.2.stats.original_size ≠ 0 := by
    intro p hp
    have h := convert_image_some_props (successes_mem hp)
    rw [h.2.1]
    exact h.2.2
  rw [processBatch_eq]
  cases hs : successes files q l with
  | nil =>
    refine ⟨fun _ => by simp [aggregateOf], fun hne => absurd (by simp) hne, ?_⟩
    simp [aggregateOf]
  | cons p ps =>
    have horig : p.2.stats.original_size ≠ 0 := key p (hs ▸ List.mem_cons_self p ps)
    have htot : (((p :: ps).map fun x => x.2.stats.original_size).sum) ≠ 0 := by
      simp only [List.map_cons, List.sum_cons]
      omega
    refine ⟨fun hc => absurd hc (by simp), fun _ => ?_, ?_⟩
    · unfold aggregateOf
      rw [if_neg (by simp), if_neg htot]
    · unfold aggregateOf
      rw [if_neg (by simp), if_neg htot]
      simp

def c5OkImage : PILImage :=
  { base := { mode := Mode.RGB, hasTransparencyInfo := false,
              durationInfo := none, width := 10, height := 10,
              pix := PixelOp.source 10 },
    isAnimatedAttr := none, nFramesAttr := none, gifFrames := [] }

def c5OkSrc : SourceFile :=
  { filename := "ok.png", byteLen := 1000, decoded := some c5OkImage }

/-- C5 witness: a batch with one success and one failure shows the computed
aggregate reduction, and an all-failed batch skips the block. -/
theorem C5_amended_witness :
    (processBatch [c5OkSrc, c5BadSrc] 80 false).convertedFiles ≠ [] ∧
    aggregateOf (processBatch [c5OkSrc, c5BadSrc] 80 false) =
      AggregateDisplay.shown
        (reductionPct (processBatch [c5OkSrc, c5BadSrc] 80 false).totalOriginal
          (processBatch [c5OkSrc, c5BadSrc] 80 false).totalNew) ∧
    aggregateOf (processBatch [c5BadSrc] 80 false) = AggregateDisplay.skipped :=
  ⟨by decide,
   (C5_amended [c5OkSrc, c5BadSrc] 80 false).2.1 (by decide),
   (C5_amended [c5BadSrc] 80 false).1 (by decide)⟩

/-- C6: a non-PNG, non-GIF input whose decoded frame reports mode RGBA is
composited over an opaque white background: the saved image is opaque RGB,
its pixels are the source pixels pasted onto a white (255,255,255)
background, and the stats record has `has_transparency = false`. -/
theorem C6_nonpng_alpha_composited_white (src : SourceFile) (pil : PILImage)
    (q : Nat) (l : Bool)
    (hpng : fileExt src.filename ≠ "png") (hgif : fileExt src.filename ≠ "gif")
    (hdec : src.decoded = some pil) (hmode : pil.base.mode = Mode.RGBA)
    (hbl : src.byteLen ≠ 0) :
    (convert_image_to_webp src q l).map savedMode = some Mode.RGB ∧
    (convert_image_to_webp src q l).map statsTransparency = some false ∧
    (convert_image_to_webp src q l).map savedPix =
      some (PixelOp.pasteOnto 255 255 255 pil.base.pix) := by
  rw [convert_image_nongif_eq q l hgif hdec hbl]
  have hnorm : staticNormalize (fileExt src.filename) pil.base =
      { mode := Mode.RGB, hasTransparencyInfo := false, durationInfo := none,
        width := pil.base.width, height := pil.base.height,
        pix := PixelOp.pasteOnto 255 255 255 pil.base.pix } := by
    unfold staticNormalize
    rw [if_pos hmode, if_neg hpng]
  refine ⟨?_, ?_, ?_⟩ <;>
    simp [savedMode, statsTransparency, savedPix, mkStaticOutput, hnorm]

def c6JpegImage : PILImage :=
  { base := { mode := Mode.RGBA, hasTransparencyInfo := false,
              durationInfo := none, width := 6, height := 4,
              pix := PixelOp.source 11 },
    isAnimatedAttr := none, nFramesAttr := none, gifFrames := [] }

def c6JpegSrc : SourceFile :=
  { filename := "photo.jpg", byteLen := 4000, decoded := some c6JpegImage }

/-- C6 witness: a concrete JPEG whose decode anomalously reports RGBA is
forced opaque over white. -/
theorem C6_nonpng_alpha_composited_white_witness :
    (convert_image_to_webp c6JpegSrc 85 false).map savedMode = some Mode.RGB ∧
    (convert_image_to_webp c6JpegSrc 85 false).map statsTransparency = some false :=
  ⟨(C6_nonpng_alpha_composited_white c6JpegSrc c6JpegImage 85 false (by decide)
      (by decide) rfl (by decide) (by decide)).1,
   (C6_nonpng_alpha_composited_white c6JpegSrc c6JpegImage 85 false (by decide)
      (by decide) rfl (by decide) (by decide)).2.1⟩

/-- C7: a GIF routes to the animated path exactly when the decoder reports
`is_animated` set and a frame count > 1 (otherwise to the static path); the
static path's stats have `animated = false` and `frames = 1`, the animated
path's have `animated = true` and `frames = n`, the source frame count. -/
theorem C7_gif_routing (src : SourceFile) (g : PILImage) (q : Nat) (l : Bool)
    (hext : fileExt src.filename = "gif") (hdec : src.decoded = some g)
    (hbl : src.byteLen ≠ 0) :
    ((g.isAnimatedAttr.getD false = true ∧ 1 < g.nFramesAttr.getD 1) →
      convert_image_to_webp src q l =
        convert_animated_gif_to_webp g src.byteLen src.filename q l ∧
      (g.nFramesAttr.getD 1 ≤ g.gifFrames.length →
        (convert_image_to_webp src q l).map statsAnimated = some (some true) ∧
        (convert_image_to_webp src q l).map statsFrames =
          some (some (g.nFramesAttr.getD 1)))) ∧
    (¬(g.isAnimatedAttr.getD false = true ∧ 1 < g.nFramesAttr.getD 1) →
      convert_image_to_webp src q l =
        convert_static_gif_to_webp g src.byteLen src.filename q l ∧
      (convert_image_to_webp src q l).map statsAnimated = some (some false) ∧
      (convert_image_to_webp src q l).map statsFrames = some (some 1)) := by
  have hcg := convert_image_gif_eq src q l hext
  have hroute := convert_gif_routing (g := g) q l hdec
  constructor
  · intro hAnim
    have heq : convert_image_to_webp src q l =
        convert_animated_gif_to_webp g src.byteLen src.filename q l := by
      rw [hcg, hroute, if_pos hAnim]
    refine ⟨heq, fun hle => ?_⟩
    have hseek : seekFrames g (g.nFramesAttr.getD 1) =
        some (g.gifFrames.take (g.nFramesAttr.getD 1)) := by
      unfold seekFrames
      rw [if_pos hle]
    have hlen : (g.gifFrames.take (g.nFramesAttr.getD 1)).length =
        g.nFramesAttr.getD 1 := by
      rw [List.length_take]
      omega
    obtain ⟨f, fs, hcons⟩ : ∃ f fs,
        (g.gifFrames.take (g.nFramesAttr.getD 1)).map animatedNormalize
          = f :: fs := by
      cases hc : (g.gifFrames.take (g.nFramesAttr.getD 1)).map animatedNormalize with
      | nil =>
        exfalso
        have h0 : (g.gifFrames.take (g.nFramesAttr.getD 1)).length = 0 := by
          simpa using congrArg List.length hc
        rw [hlen] at h0
        omega
      | cons a as => exact ⟨a, as, rfl⟩
    rw [heq, convert_animated_eq g src.byteLen src.filename q l _ f fs hseek hcons hbl]
    have hflen : (f :: fs).length = g.nFramesAttr.getD 1 := by
      rw [← hcons, List.length_map, hlen]
    constructor
    · simp [statsAnimated, mkAnimatedOutput]
    · show some (some (f :: fs).length) = some (some (g.nFramesAttr.getD 1))
      rw [hflen]
  · intro hstat
    have heq : convert_image_to_webp src q l =
        convert_static_gif_to_webp g src.byteLen src.filename q l := by
      rw [hcg, hroute, if_neg hstat]
    refine ⟨heq, ?_, ?_⟩ <;>
      (rw [heq]; unfold convert_static_gif_to_webp; rw [if_neg hbl];
       simp [statsAnimated, statsFrames, mkGifStaticOutput])

def c7Frame (i : Nat) : FrameData :=
  { mode := Mode.RGB, hasTransparencyInfo := false, durationInfo := some 100,
    width := 5, height := 5, pix := PixelOp.source (20 + i) }

def c7AnimGif : PILImage :=
  { base := c7Frame 0, isAnimatedAttr := some true, nFramesAttr := some 5,
    gifFrames := [c7Frame 0, c7Frame 1, c7Frame 2, c7Frame 3, c7Frame 4] }

def c7AnimSrc : SourceFile :=
  { filename := "five.gif", byteLen := 2000, decoded := some c7AnimGif }

def c7StillGif : PILImage :=
  { base := c7Frame 9, isAnimatedAttr := some false, nFramesAttr := some 1,
    gifFrames := [c7Frame 9] }

def c7StillSrc : SourceFile :=
  { filename := "still.gif", byteLen := 300, decoded := some c7StillGif }

/-- C7 witness: a 5-frame animated GIF yields `animated = true, frames = 5`;
a single-frame GIF routes static with `animated = false, frames = 1`. -/
theorem C7_gif_routing_witness :
    (convert_image_to_webp c7AnimSrc 80 false).map statsFrames = some (some 5) ∧
    (convert_image_to_webp c7AnimSrc 80 false).map statsAnimated = some (some true) ∧
    (convert_image_to_webp c7StillSrc 80 false).map statsAnimated = some (some false) ∧
    (convert_image_to_webp c7StillSrc 80 false).map statsFrames = some (some 1) := by
  have hA := (C7_gif_routing c7AnimSrc c7AnimGif 80 false (by decide) rfl
    (by decide)).1 (by decide)
  have hS := (C7_gif_routing c7StillSrc c7StillGif 80 false (by decide) rfl
    (by decide)).2 (by decide)
  obtain ⟨h1, h2⟩ := hA.2 (by decide)
  exact ⟨h2, h1, hS.2.1, hS.2.2⟩

/-- C8: a failed item never aborts the batch, contributes nothing to the
totals and adds no row, while every successful item's byte counts are folded
in exactly once: the batch state is exactly the fold of the successful
conversions in upload order, and removing a failing item from anywhere in
the batch leaves the state unchanged. -/
theorem C8_batch_isolation :
    (∀ (files : List SourceFile) (q : Nat) (l : Bool),
      processBatch files q l =
        { convertedFiles := (successes files q l).map
            fun p => (p.2.webpData, webpName p.1.filename),
          allStats := (successes files q l).map fun p => p.2.stats,
          totalOriginal :=
            ((successes files q l).map fun p => p.2.stats.original_size).sum,
          totalNew :=
            ((successes files q l).map fun p => p.2.stats.new_size).sum }) ∧
    (∀ (pre post : List SourceFile) (bad : SourceFile) (q : Nat) (l : Bool),
      convert_image_to_webp bad q l = none →
      processBatch (pre ++ bad :: post) q l = processBatch (pre ++ post) q l) := by
  constructor
  · exact processBatch_eq
  · intro pre post bad q l hbad
    rw [processBatch_eq, processBatch_eq]
    have hsucc : successes (pre ++ bad :: post) q l = successes (pre ++ post) q l := by
      unfold successes
      rw [List.filterMap_append, List.filterMap_append, List.filterMap_cons]
      simp [hbad]
    rw [hsucc]

def c8GoodSrc : SourceFile :=
  { filename := "a.png", byteLen := 600,
    decoded := some
      { base := { mode := Mode.RGB, hasTransparencyInfo := false,
                  durationInfo := none, width := 7, height := 7,
                  pix := PixelOp.source 30 },
        isAnimatedAttr := none, nFramesAttr := none, gifFrames := [] } }

def c8BadSrc : SourceFile :=
  { filename := "b.jpg", byteLen := 20, decoded := none }

def c8GoodSrc2 : SourceFile :=
  { filename := "c.jpg", byteLen := 900,
    decoded := some
      { base := { mode := Mode.RGB, hasTransparencyInfo := false,
                  durationInfo := none, width := 9, height := 9,
                  pix := PixelOp.source 31 },
        isAnimatedAttr := none, nFramesAttr := none, gifFrames := [] } }

/-- C8 witness: a concrete failing middle item leaves the batch state
exactly as if it were absent. -/
theorem C8_batch_isolation_witness :
    convert_image_to_webp c8BadSrc 80 false = none ∧
    processBatch [c8GoodSrc, c8BadSrc, c8GoodSrc2] 80 false =
      processBatch [c8GoodSrc, c8GoodSrc2] 80 false :=
  ⟨by decide,
   C8_batch_isolation.2 [c8GoodSrc] [c8GoodSrc2] c8BadSrc 80 false (by decide)⟩

/-- C9: when the policy is lossless, the encoded bytes do not depend on the
policy quality — on the static path, the static-GIF path and the animated
path alike, the same input encodes to identical bytes for any two quality
values. -/
theorem C9_lossless_ignores_quality (src : SourceFile) (g : PILImage)
    (bl : Nat) (fn : String) (q1 q2 : Nat) :
    (convert_image_to_webp src q1 true).map ConvOutput.webpData =
      (convert_image_to_webp src q2 true).map ConvOutput.webpData ∧
    (convert_static_gif_to_webp g bl fn q1 true).map ConvOutput.webpData =
      (convert_static_gif_to_webp g bl fn q2 true).map ConvOutput.webpData ∧
    (convert_animated_gif_to_webp g bl fn q1 true).map ConvOutput.webpData =
      (convert_animated_gif_to_webp g bl fn q2 true).map ConvOutput.webpData :=
  ⟨rfl, rfl, rfl⟩

/-- C10: in lossy mode every stats record's compression label is built from
the caller-supplied policy quality — "Qualidade q" on the static path (even
when the frame is RGBA and the encoder actually received the bumped
`min(q+5,100)`), "WEBP Estático - Qualidade q" on the static-GIF path and
"WEBP Animado - Qualidade q" on the animated path; the label never shows
the bumped value. -/
theorem C10_label_reports_policy_quality :
    (∀ (src : SourceFile) (pil : PILImage) (q : Nat),
      fileExt src.filename ≠ "gif" → src.decoded = some pil →
      src.byteLen ≠ 0 →
      (convert_image_to_webp src q false).map statsCompression =
        some ("Qualidade " ++ toString q) ∧
      ((staticNormalize (fileExt src.filename) pil.base).mode = Mode.RGBA →
        (convert_image_to_webp src q false).map effQuality =
          some (some (min (q + 5) 100)))) ∧
    (∀ (g : PILImage) (bl : Nat) (fn : String) (q : Nat), bl ≠ 0 →
      (convert_static_gif_to_webp g bl fn q false).map statsCompression =
        some ("WEBP Estático - Qualidade " ++ toString q)) ∧
    (∀ (g : PILImage) (bl : Nat) (fn : String) (q : Nat)
      (raws : List FrameData) (f0 : FrameData) (rest : List FrameData),
      seekFrames g (g.nFramesAttr.getD 1) = some raws →
      raws.map animatedNormalize = f0 :: rest → bl ≠ 0 →
      (convert_animated_gif_to_webp g bl fn q false).map statsCompression =
        some ("WEBP Animado - Qualidade " ++ toString q)) := by
  refine ⟨?_, ?_, ?_⟩
  · intro src pil q hext hdec hbl
    rw [convert_image_nongif_eq q false hext hdec hbl]
    constructor
    · simp [statsCompression, mkStaticOutput, staticSaveCall_lossy_label]
    · intro hmode
      simp [effQuality, mkStaticOutput, staticSaveCall_lossy_rgba q hmode]
  · intro g bl fn q hbl
    unfold convert_static_gif_to_webp
    rw [if_neg hbl]
    simp [statsCompression, mkGifStaticOutput, gifStaticSaveCall]
  · intro g bl fn q raws f0 rest hseek hmap hbl
    rw [convert_animated_eq g bl fn q false raws f0 rest hseek hmap hbl]
    simp [statsCompression, mkAnimatedOutput, animatedSaveCall]

def c10PngImage : PILImage :=
  { base := { mode := Mode.RGBA, hasTransparencyInfo := false,
              durationInfo := none, width := 12, height := 12,
              pix := PixelOp.source 40 },
    isAnimatedAttr := none, nFramesAttr := none, gifFrames := [] }

def c10PngSrc : SourceFile :=
  { filename := "badge.png", byteLen := 700, decoded := some c10PngImage }

/-- C10 witness: a concrete RGBA PNG at policy quality 85 is encoded at 90
but labelled "Qualidade 85". -/
theorem C10_label_reports_policy_quality_witness :
    (convert_image_to_webp c10PngSrc 85 false).map statsCompression =
      some ("Qualidade " ++ toString 85) ∧
    (convert_image_to_webp c10PngSrc 85 false).map effQuality =
      some (some (min (85 + 5) 100)) := by
  have h := C10_label_reports_policy_quality.1 c10PngSrc c10PngImage 85
    (by decide) rfl (by decide)
  exact ⟨h.1, h.2 (by decide)⟩
